import Mathlib

/-!
Verification of the ShopSmart query-time pipelines.

Shallow embedding of the two pipeline variants of the repository:

* `main.py` — the entity-resolution endpoint `resolve_entity` (Redis cache,
  hybrid Qdrant retrieval, LLM judge, JSONL trace records), modelled by
  `resolve_entity` below over an explicit environment that carries the cache
  state and the results of the external collaborators (vector store, judge).
* `src/backend.py` — the ranked-search endpoint `search` (Redis cache, dense
  plus sparse retrieval via REST, identifier deduplication, cross-encoder
  rerank through a sigmoid, structured search logs), modelled by
  `backendSearch`, and its helpers `sigmoid` and `get_sparse_vector`.

External collaborators (embedding models, Qdrant, the LLM, the cross-encoder,
the token hashing of HashingVectorizer) are passed in as explicit inputs;
everything the repository itself computes is translated directly from the
Python source.
-/

namespace ShopSmart

/-! ### Python string primitives

Character-list renderings of the Python `str` operations used by the two
cache-key computations: `str.lower`, `str.split()` (split on whitespace runs,
dropping empty fragments) and `str.strip()`.  Unicode case folding and the
full Python whitespace class are approximated by `Char.toLower` and
`Char.isWhitespace`; every claim only exercises ASCII text.
-/

/-- Python `str.lower`, character by character. -/
def pyLowerChars (l : List Char) : List Char := l.map Char.toLower

/-- Python `str.lower` on a whole string. -/
def pyLower (s : String) : String := String.mk (pyLowerChars s.data)

/-- Python `str.startswith`. -/
def pyStartsWith (s pre : String) : Bool := pre.data.isPrefixOf s.data

/-- Accumulator worker for `pySplitWS`; `acc` holds the current token
reversed. -/
def splitWSAux : List Char → List Char → List (List Char)
  | [], acc => if acc = [] then [] else [acc.reverse]
  | c :: cs, acc =>
    if c.isWhitespace then
      if acc = [] then splitWSAux cs [] else acc.reverse :: splitWSAux cs []
    else splitWSAux cs (c :: acc)

/-- Python `str.split()` with no separator: split on runs of whitespace and
drop empty fragments. -/
def pySplitWS (l : List Char) : List (List Char) := splitWSAux l []

/-- Python `str.strip()`: drop leading and trailing whitespace. -/
def pyStripChars (l : List Char) : List Char :=
  ((l.dropWhile Char.isWhitespace).reverse.dropWhile Char.isWhitespace).reverse

/-- Normalized cache key of `main.py` line 115:
`normalized_query = " ".join(query.lower().split())`. -/
def mainNormalize (q : String) : String :=
  String.mk (List.intercalate [' '] (pySplitWS (pyLowerChars q.data)))

/-- Cache key of `src/backend.py` line 83:
`cache_key = f"search:\x7brequest.query.lower().strip()\x7d:\x7brequest.top_k\x7d:v5"`. -/
def backendCacheKey (q : String) (top_k : Nat) : String :=
  "search:" ++ String.mk (pyStripChars (pyLowerChars q.data)) ++ ":" ++
    toString top_k ++ ":v5"

/-! ### JSON scalar values

The judge replies with JSON; `main.py` inspects the parsed fields with Python
truthiness, `is None` tests and `str(...)`.  `JVal` models the JSON scalars
that can appear in the `match_found` / `candidate_id` / `reasoning` fields.
-/

/-- A JSON scalar as produced by `json.loads` for a judge-response field. -/
inductive JVal where
  | jnull
  | jbool (b : Bool)
  | jint (n : Int)
  | jstr (s : String)
deriving DecidableEq

/-- Python `str(...)` on a JSON scalar (`str(None) = "None"`,
`str(True) = "True"`). -/
def pyStr : JVal → String
  | .jnull => "None"
  | .jbool true => "True"
  | .jbool false => "False"
  | .jint n => toString n
  | .jstr s => s

/-- Python truthiness of a JSON scalar. -/
def pyTruthy : JVal → Bool
  | .jnull => false
  | .jbool b => b
  | .jint n => n != 0
  | .jstr s => s != ""

/-- Truthiness of `dict.get(key)`: a missing key yields `None`, which is
falsy. -/
def truthyGet : Option JVal → Bool
  | none => false
  | some v => pyTruthy v

/-- Python `dict.get(key) is None`: true when the key is missing or its value
is JSON `null`. -/
def getIsNone : Option JVal → Bool
  | none => true
  | some .jnull => true
  | some _ => false

/-- Python `str(dict.get(key))`: a missing key prints as `"None"`. -/
def pyStrGet (v : Option JVal) : String := pyStr (v.getD .jnull)

/-! ### Data model of `main.py` (`resolve_entity`)

The Qdrant payload keys actually read by `resolve_entity` are modelled as
optional fields (a `none` stands for an absent key).  Numeric payload prices
are modelled as strings; no claim depends on the price value.
-/

/-- The slice of a Qdrant point payload that `resolve_entity` reads. -/
structure Payload where
  name : Option String
  title : Option String
  original_string : Option String
  price : Option String
  /-- Outer `Option`: is the `priceInfo` key present; inner value: the result
  of `['priceInfo'].get('currentPrice', \x7b\x7d).get('priceString')` when
  present. -/
  priceInfo : Option (Option String)
  url : Option String
  canonicalUrl : Option String
  retailer : Option String
deriving DecidableEq

/-- A scored point returned by `qdrant.query_points`. -/
structure MHit where
  score : ℚ
  payload : Payload
deriving DecidableEq

/-- The parsed judge reply, a JSON object; each field is `none` when the key
is absent. -/
structure JudgeDecision where
  match_found : Option JVal
  candidate_id : Option JVal
  reasoning : Option JVal
deriving DecidableEq

/-- The pydantic response model `ProductMatch` of `main.py`. -/
structure ProductMatch where
  product_title : String
  match_score : ℚ
  retailer : String
  latency_ms : ℚ
  price : String
  url : String
deriving DecidableEq

/-- Outcome of one `/resolve` request: the returned `ProductMatch`, or the
`HTTPException` raised (status code and detail). -/
inductive Outcome where
  | success (m : ProductMatch)
  | httpError (status : Nat) (detail : String)
deriving DecidableEq

/-- Whether an outcome is a successful match. -/
def Outcome.isSuccess : Outcome → Bool
  | .success _ => true
  | .httpError _ _ => false

/-- One record written by `log_trace` (the wall-clock timestamp is omitted;
it is opaque to every claim). -/
structure TraceRecord where
  query : String
  /-- Field `retrieval.top_candidates`: title (via the `name` →
  `original_string` → `"Unknown"` chain) and score of every hit. -/
  top_candidates : List (String × ℚ)
  /-- Field `llm_judge.decision`: the raw `match_found` value, or `False` when the
  decision dict is falsy. -/
  decision : Option JVal
  /-- Field `llm_judge.reasoning`, defaulting to `"No reasoning provided."`. -/
  reasoning : Option JVal
  /-- Field `llm_judge.candidate_id`. -/
  candidate_id : Option JVal
  latency_ms : ℚ
  /-- Field `outcome.status`: `"success"` or `"not_found"`. -/
  status : String
  /-- Field `outcome.error`: the error marker string, if any. -/
  error : Option String
deriving DecidableEq

/-- The external calls a request can make. -/
inductive Service where
  | denseEncode
  | sparseEncode
  | qdrantQuery
  | llmJudge
deriving DecidableEq

/-- Environment of one `/resolve` request: the cache state plus the replies
of the external collaborators.  `judge = none` models an unparsable
(non-JSON) judge reply; `qdrant = .error e` models a raised Qdrant
exception. -/
structure Env where
  redisUp : Bool
  cache : List (String × ProductMatch)
  qdrant : Except String (List MHit)
  judge : Option JudgeDecision
  latency : ℚ

/-- Everything a `/resolve` request produces: the response or error, the
cache state afterwards, the trace records queued via `background_tasks`, and
the external services invoked. -/
structure ResolveOut where
  outcome : Outcome
  cache : List (String × ProductMatch)
  traces : List TraceRecord
  services : List Service
deriving DecidableEq

/-- Title extraction of `main.py` line 156:
`payload.get('name', payload.get('title', payload.get('original_string', 'Unknown Title')))`. -/
def candidateTitle (p : Payload) : String :=
  p.name.getD (p.title.getD (p.original_string.getD "Unknown Title"))

/-- Trace title chain of `log_trace` line 81:
`payload.get('name', payload.get('original_string', 'Unknown'))`. -/
def traceTitle (p : Payload) : String :=
  p.name.getD (p.original_string.getD "Unknown")

/-- Build one trace record, following `log_trace`.  The `d = none` case is
the falsy `\x7b\x7d` dict passed on the JSON-decode-error path. -/
def mkTrace (query : String) (hits : List MHit) (d : Option JudgeDecision)
    (latency : ℚ) (err : Option String) : TraceRecord :=
  { query := query
    top_candidates := hits.map fun h => (traceTitle h.payload, h.score)
    decision := match d with
      | none => some (.jbool false)
      | some dd => dd.match_found
    reasoning := match d with
      | none => some (.jstr "No reasoning provided.")
      | some dd => dd.reasoning
    candidate_id := match d with
      | none => none
      | some dd => dd.candidate_id
    latency_ms := latency
    status := if (match d with
        | none => false
        | some dd => truthyGet dd.match_found) then "success" else "not_found"
    error := err }

/-- The map `candidate_map`: `\x7bstr(i): hit.payload\x7d` for the enumerated
hits. -/
def candidate_map (hits : List MHit) : List (String × Payload) :=
  hits.enum.map fun p => (toString p.1, p.2.payload)

/-- The rejection test of `main.py` line 221:
`not decision.get("match_found") or decision.get("candidate_id") is None or
str(decision.get("candidate_id")).lower() in ["none", "null", ""]`. -/
def llmReject (d : JudgeDecision) : Bool :=
  !truthyGet d.match_found || getIsNone d.candidate_id ||
    (pyLower (pyStrGet d.candidate_id) == "none" ||
     pyLower (pyStrGet d.candidate_id) == "null" ||
     pyLower (pyStrGet d.candidate_id) == "")

/-- Response construction of `main.py` lines 236 to 257: title, price and url
extraction plus the constant `match_score` of `1.0`. -/
def buildMatch (p : Payload) (latency : ℚ) : ProductMatch :=
  let priceVal : Option String :=
    if (p.price = none ∨ p.price = some "") ∧ p.priceInfo.isSome then
      some ((p.priceInfo.getD none).getD "N/A")
    else p.price
  let urlVal : String := p.url.getD (p.canonicalUrl.getD "#")
  { product_title := candidateTitle p
    match_score := 1
    retailer := p.retailer.getD "Walmart"
    latency_ms := latency
    price := match priceVal with
      | none => "None"
      | some s => s
    url := if pyStartsWith urlVal "/" then "https://www.walmart.com" ++ urlVal
      else urlVal }

/-- The services invoked before the judge: dense encode, sparse embed, Qdrant
query. -/
def vecServices : List Service :=
  [Service.denseEncode, Service.sparseEncode, Service.qdrantQuery]

/-- Cache check of `main.py` lines 116 to 121: only consulted when the Redis
client exists. -/
def cacheCheck (env : Env) (query : String) : Option ProductMatch :=
  if env.redisUp then List.lookup (mainNormalize query) env.cache else none

/-- The judge stage of `resolve_entity` (lines 210 to 270): JSON decoding,
the rejection test, candidate-id validation, response construction, the
cache write and the trace task. -/
def judgeStage (env : Env) (query normalized : String) (hits : List MHit) :
    ResolveOut :=
  match env.judge with
  | none =>
    ⟨.httpError 404 "AI reasoning failure. Safely rejecting.", env.cache,
      [mkTrace query hits none env.latency (some "JSON Decode Error")],
      vecServices ++ [Service.llmJudge]⟩
  | some d =>
    if llmReject d then
      ⟨.httpError 404 "LLM rejected all candidates.", env.cache,
        [mkTrace query hits (some d) env.latency (some "LLM Rejected")],
        vecServices ++ [Service.llmJudge]⟩
    else
      match List.lookup (pyStrGet d.candidate_id) (candidate_map hits) with
      | none =>
        ⟨.httpError 500 "LLM returned an unparseable candidate ID.", env.cache,
          [mkTrace query hits (some d) env.latency
            (some "Invalid Candidate ID")],
          vecServices ++ [Service.llmJudge]⟩
      | some p =>
        let m := buildMatch p env.latency
        ⟨.success m,
          (if env.redisUp then (normalized, m) :: env.cache else env.cache),
          [mkTrace query hits (some d) env.latency none],
          vecServices ++ [Service.llmJudge]⟩

/-- The retrieval stage of `resolve_entity` (lines 124 to 151): the guarded
Qdrant query and the empty-result check.  Neither failure path queues a
trace task. -/
def retrievalStage (env : Env) (query normalized : String) : ResolveOut :=
  match env.qdrant with
  | .error e =>
    ⟨.httpError 500 ("Database error: " ++ e), env.cache, [], vecServices⟩
  | .ok hits =>
    if hits.isEmpty then
      ⟨.httpError 404 "No products found in vector search.", env.cache, [],
        vecServices⟩
    else judgeStage env query normalized hits

/-- The `/resolve` endpoint of `main.py`: cache short-circuit, then the
retrieval and judge stages.  A Redis `setex` is modelled by consing the new
binding in front of the association list (lookup finds the newest
binding). -/
def resolve_entity (env : Env) (query : String) : ResolveOut :=
  match cacheCheck env query with
  | some m => ⟨.success m, env.cache, [], []⟩
  | none => retrievalStage env query (mainNormalize query)

/-! ### Data model of `src/backend.py` (`search`)

Logits of the cross-encoder and the resulting sigmoid scores are modelled over
`ℝ` (the idealization of the float arithmetic in the source); `Float`
round-off is outside the scope of every claim.
-/

/-- Function `sigmoid` of `src/backend.py` line 38: `1 / (1 + np.exp(-x))`. -/
noncomputable def sigmoid (x : ℝ) : ℝ := 1 / (1 + Real.exp (-x))

/-- The slice of a backend point payload that `search` reads.  `title` is
accessed with `hit.payload['title']` (unconditionally) by the rerank, hence
not optional. -/
structure BPayload where
  product_id : Option String
  title : String
  price : Option String
  rating : Option ℚ
  img_link : Option String
  category : Option String

/-- A `ScoredPoint` as rebuilt by `search_via_rest`. -/
structure BHit where
  id : Nat
  score : ℝ
  payload : BPayload

/-- The identifier deduplication of `search` lines 102 to 107: walk
`dense_hits + sparse_hits`, keeping a hit only when its id was not seen
before. -/
def dedupHits : List BHit → List Nat → List BHit
  | [], _ => []
  | h :: t, seen =>
    if h.id ∈ seen then dedupHits t seen else h :: dedupHits t (h.id :: seen)

/-- Candidate fusion: deduplicate the concatenation of the dense and the
sparse hit lists. -/
def fuseCandidates (dense_hits sparse_hits : List BHit) : List BHit :=
  dedupHits (dense_hits ++ sparse_hits) []

/-- The rerank of `search` lines 113 to 121: bound the pool to 12, replace
each pooled score by the sigmoid of the cross-encoder logit for that
(query, title) pair, sort descending by score (Python `sorted` with
`reverse=True` is a stable merge sort), truncate to `top_k`.  The logits are
the output of `reranker.predict`, one per pooled candidate, passed in as an
input. -/
noncomputable def searchRerank (candidates : List BHit) (logits : List ℝ)
    (top_k : Nat) : List BHit :=
  let rerank_pool := candidates.take 12
  let scored := List.zipWith (fun h l => { h with score := sigmoid l })
    rerank_pool logits
  (scored.mergeSort fun a b => decide (b.score ≤ a.score)).take top_k

/-- One entry of the `results` list of the `search` response (lines 123 to
131).  `relevance_score` is `round(h.score, 3)`, modelled with the
round-to-nearest of `ℝ` (Python rounds half to even; no claim touches an
exact midpoint). -/
structure BResult where
  id : Option String
  title : String
  price : Option String
  rating : Option ℚ
  image : Option String
  category : Option String
  relevance_score : ℝ

/-- Convert a reranked hit to a response entry. -/
noncomputable def toBResult (h : BHit) : BResult :=
  { id := h.payload.product_id
    title := h.payload.title
    price := h.payload.price
    rating := h.payload.rating
    image := h.payload.img_link
    category := h.payload.category
    relevance_score := (round (h.score * 1000) : ℝ) / 1000 }

/-- The `search` response body. -/
structure BResponse where
  results : List BResult
  latency_ms : ℚ
  source : String

/-- One entry written by `log_search_event` (timestamp omitted). -/
structure BLog where
  query : String
  latency_ms : ℚ
  results_count : Nat
  source : String

/-- Environment of one `/search` request: cache state, the two retrieval
results (`search_via_rest` already degrades failures to `[]`), the
cross-encoder logits and the measured latency. -/
structure BEnv where
  redisUp : Bool
  cache : List (String × BResponse)
  dense_hits : List BHit
  sparse_hits : List BHit
  logits : List ℝ
  latency : ℚ

/-- The `/search` request body. -/
structure BRequest where
  query : String
  top_k : Nat

/-- Everything a `/search` request produces. -/
structure BOut where
  response : BResponse
  cache : List (String × BResponse)
  logs : List BLog

/-- Cache check of `search` lines 84 to 90: only consulted when the Redis
client exists. -/
def bCacheCheck (env : BEnv) (req : BRequest) : Option BResponse :=
  if env.redisUp then
    List.lookup (backendCacheKey req.query req.top_k) env.cache
  else none

/-- The `/search` endpoint of `src/backend.py`: cache check, fusion with
identifier deduplication, the empty-candidates early return (which queues no
log task), the rerank, the log task and the cache write. -/
noncomputable def backendSearch (env : BEnv) (req : BRequest) : BOut :=
  let cache_key := backendCacheKey req.query req.top_k
  match bCacheCheck env req with
  | some data =>
    ⟨data, env.cache, [⟨req.query, 0, data.results.length, "Cache"⟩]⟩
  | none =>
    let candidates := fuseCandidates env.dense_hits env.sparse_hits
    if candidates.isEmpty then
      ⟨⟨[], 0, "Empty"⟩, env.cache, []⟩
    else
      let ranked := searchRerank candidates env.logits req.top_k
      let results := ranked.map toBResult
      let response : BResponse := ⟨results, env.latency, "Hybrid+TinyBERT"⟩
      ⟨response,
        (if env.redisUp then (cache_key, response) :: env.cache
          else env.cache),
        [⟨req.query, env.latency, results.length, "Hybrid+TinyBERT"⟩]⟩

/-! ### The sparse vectorizer of `src/backend.py`

`get_sparse_vector` (lines 40 to 43) runs a scikit-learn `HashingVectorizer`
(`n_features=30000`, `norm='l2'`, `alternate_sign=False`) over the text,
sorts the CSR indices, and emits the indices and values.  The vectorizer is
modelled from its documented semantics: tokenize the text (external, an input
here), hash every token into a bucket below `n_features`, count per bucket
(no sign alternation), and l2-normalize the counts.  The CSR row holds one
entry per bucket with a nonzero count; after `sort_indices` the indices are
ascending. -/

/-- Constant `n_features` of the `HashingVectorizer`.  Marked irreducible so that
unification never materializes `List.range n_features`. -/
def n_features : Nat := 30000

attribute [irreducible] n_features

/-- A sparse vector as returned by `get_sparse_vector`: parallel index and
value lists. -/
structure SparseVec where
  indices : List Nat
  values : List ℝ

/-- The bucket index of every token occurrence: hash modulo `n_features`
(sign alternation is off, so every occurrence contributes `+1` to its
bucket). -/
def sparseIdxs (hash : String → Nat) (tokens : List String) : List Nat :=
  tokens.map fun t => hash t % n_features

/-- The CSR support: the buckets with a nonzero count, in the ascending
order produced by `sort_indices`. -/
def sparseSupport (hash : String → Nat) (tokens : List String) : List Nat :=
  (List.range n_features).filter fun i => (sparseIdxs hash tokens).count i != 0

/-- The l2 norm of the raw count vector. -/
noncomputable def sparseNorm (hash : String → Nat)
    (tokens : List String) : ℝ :=
  Real.sqrt (((sparseSupport hash tokens).map
    fun i => (((sparseIdxs hash tokens).count i : ℝ)) ^ 2).sum)

/-- The sparse vectorizer, parametrized by the token hash and applied to the
token list of the input text. -/
noncomputable def get_sparse_vector (hash : String → Nat)
    (tokens : List String) : SparseVec :=
  ⟨sparseSupport hash tokens,
   (sparseSupport hash tokens).map
     fun i => ((sparseIdxs hash tokens).count i : ℝ) / sparseNorm hash tokens⟩

/-! ### Claim C1 — cache-key normalization -/

/-- C1 counterexample: the claim states that for every query string the
cache key is lowercased and whitespace-collapsed, so that
`"  Sony  XM5 "` and `"sony xm5"` produce the identical cache key.  The
`search` endpoint of `src/backend.py` only lowercases and strips the ends of
the query, so these two queries — which differ only in case and whitespace —
produce different cache keys. -/
theorem c1_counterexample :
    backendCacheKey "  Sony  XM5 " 10 ≠ backendCacheKey "sony xm5" 10 := by
  decide

/-- C1 (amended): in the entity-resolution pipeline (`main.py`) the cache
key is the lowercased, whitespace-collapsed query, so any two queries with
the same lowercased whitespace-separated tokens — in particular
`"  Sony  XM5 "` and `"sony xm5"` — share a key; in the ranked-search
pipeline (`src/backend.py`) the cache key only lowercases and strips leading
and trailing whitespace, so it identifies queries agreeing after
lowercasing and stripping, but distinguishes internal whitespace runs. -/
theorem c1_cache_key_normalization :
    (∀ q₁ q₂ : String,
      pySplitWS (pyLowerChars q₁.data) = pySplitWS (pyLowerChars q₂.data) →
      mainNormalize q₁ = mainNormalize q₂) ∧
    mainNormalize "  Sony  XM5 " = mainNormalize "sony xm5" ∧
    (∀ (q₁ q₂ : String) (k : Nat),
      pyStripChars (pyLowerChars q₁.data) =
        pyStripChars (pyLowerChars q₂.data) →
      backendCacheKey q₁ k = backendCacheKey q₂ k) := by
  refine ⟨fun q₁ q₂ h => ?_, by decide, fun q₁ q₂ k h => ?_⟩
  · unfold mainNormalize
    rw [h]
  · unfold backendCacheKey
    rw [h]

/-- C1 witness: the amended theorem applied to concrete queries. -/
theorem c1_cache_key_normalization_witness :
    mainNormalize "A  b" = mainNormalize " a B " ∧
    backendCacheKey "Sony XM5 " 5 = backendCacheKey " sony xm5" 5 :=
  ⟨c1_cache_key_normalization.1 "A  b" " a B " (by decide),
   c1_cache_key_normalization.2.2 "Sony XM5 " " sony xm5" 5 (by decide)⟩

/-! ### Claim C2 — no cache write without an accepted decision -/

/-- On every non-success outcome of the judge stage the cache is
unchanged. -/
theorem judgeStage_cache_of_not_success (env : Env) (q n : String)
    (hits : List MHit)
    (h : (judgeStage env q n hits).outcome.isSuccess = false) :
    (judgeStage env q n hits).cache = env.cache := by
  simp only [judgeStage] at h ⊢
  generalize env.judge = j at h ⊢
  rcases j with _ | d
  · rfl
  · simp only at h ⊢
    by_cases hr : llmReject d = true
    · simp [hr]
    · simp only [Bool.not_eq_true] at hr
      simp only [hr, Bool.false_eq_true, if_false] at h ⊢
      generalize hl : List.lookup (pyStrGet d.candidate_id)
        (candidate_map hits) = lr at h ⊢
      rcases lr with _ | p
      · rfl
      · simp [Outcome.isSuccess] at h

/-- C2: a cache entry is written only after an accepted decision.  On every
path where the resolution outcome is not a success — judge rejection,
malformed (unparsable) judge output, an invalid candidate index, a Qdrant
error, or empty retrieval — the cache state after `resolve_entity` equals
the cache state before. -/
theorem c2_no_cache_write_without_success (env : Env) (q : String)
    (h : (resolve_entity env q).outcome.isSuccess = false) :
    (resolve_entity env q).cache = env.cache := by
  unfold resolve_entity at h ⊢
  generalize cacheCheck env q = cc at h ⊢
  rcases cc with _ | m
  · unfold retrievalStage at h ⊢
    generalize env.qdrant = qd at h ⊢
    rcases qd with e | hits
    · rfl
    · simp only at h ⊢
      by_cases he : hits.isEmpty = true
      · simp [he]
      · simp only [Bool.not_eq_true] at he
        simp only [he, Bool.false_eq_true, if_false] at h ⊢
        exact judgeStage_cache_of_not_success env q (mainNormalize q) hits h
  · rfl

/-- C2 witness: the theorem applied at a concrete rejected request. -/
def envReject : Env :=
  { redisUp := true
    cache := []
    qdrant := .ok [⟨1, ⟨some "Sony WH-1000XM4", none, none, none, none, none,
      none, none⟩⟩]
    judge := some ⟨some (.jbool false), some .jnull,
      some (.jstr "Generation mismatch.")⟩
    latency := 7 }

/-- C2 witness: a rejected decision leaves the cache unchanged. -/
theorem c2_no_cache_write_without_success_witness :
    (resolve_entity envReject "Sony WH-1000XM5").cache = envReject.cache :=
  c2_no_cache_write_without_success envReject "Sony WH-1000XM5" (by decide)

/-! ### Claim C3 — invalid candidate index -/

/-- C3: a judge reply that passes the rejection test but whose
`candidate_id` does not name a key of the candidate map — out of range, or
not the string of any candidate index — is surfaced as an HTTP 500 error
(never as a successful match), and the single trace record queued for the
request carries the marker `Invalid Candidate ID`, distinct from the
`LLM Rejected` marker of a genuine rejection. -/
theorem c3_invalid_candidate_id (env : Env) (q : String) (hits : List MHit)
    (d : JudgeDecision)
    (hcc : cacheCheck env q = none)
    (hq : env.qdrant = .ok hits)
    (hne : hits.isEmpty = false)
    (hj : env.judge = some d)
    (hrej : llmReject d = false)
    (hid : List.lookup (pyStrGet d.candidate_id) (candidate_map hits) = none) :
    resolve_entity env q =
      ⟨.httpError 500 "LLM returned an unparseable candidate ID.", env.cache,
        [mkTrace q hits (some d) env.latency (some "Invalid Candidate ID")],
        vecServices ++ [Service.llmJudge]⟩ ∧
    (resolve_entity env q).outcome.isSuccess = false ∧
    (some "Invalid Candidate ID" : Option String) ≠ some "LLM Rejected" := by
  have hmain : resolve_entity env q =
      ⟨.httpError 500 "LLM returned an unparseable candidate ID.", env.cache,
        [mkTrace q hits (some d) env.latency (some "Invalid Candidate ID")],
        vecServices ++ [Service.llmJudge]⟩ := by
    unfold resolve_entity retrievalStage judgeStage
    rw [hcc, hq]
    simp only [hne, Bool.false_eq_true, if_false, hj, hrej, hid]
  refine ⟨hmain, ?_, by decide⟩
  rw [hmain]
  rfl

/-- C3 witness environment: three candidates, a judge accept naming index
99. -/
def env3 : Env :=
  { redisUp := false
    cache := []
    qdrant := .ok
      [⟨3, ⟨some "Sony WH-1000XM5 Black", none, none, none, none, none, none,
        none⟩⟩,
       ⟨7, ⟨some "Sony WH-1000XM5 Silver", none, none, none, none, none, none,
        none⟩⟩,
       ⟨9, ⟨some "Sony WH-1000XM4 Black", none, none, none, none, none, none,
        none⟩⟩]
    judge := some ⟨some (.jbool true), some (.jint 99),
      some (.jstr "Exact match at candidate 99.")⟩
    latency := 42 }

/-- C3 witness: `candidate_id: 99` against the 3-candidate set of `env3`
yields the 500 error and the `Invalid Candidate ID` trace marker. -/
theorem c3_invalid_candidate_id_witness :
    (resolve_entity env3 "Sony WH-1000XM5").outcome =
      .httpError 500 "LLM returned an unparseable candidate ID." ∧
    (resolve_entity env3 "Sony WH-1000XM5").traces.map TraceRecord.error =
      [some "Invalid Candidate ID"] := by
  have h := c3_invalid_candidate_id env3 "Sony WH-1000XM5"
    ((env3.qdrant.toOption).getD [])
    ⟨some (.jbool true), some (.jint 99),
      some (.jstr "Exact match at candidate 99.")⟩
    rfl rfl rfl rfl (by decide) (by decide)
  rw [h.1]
  exact ⟨rfl, rfl⟩

/-! ### Claim C4 — malformed judge output -/

/-- C4: a judge reply that cannot be parsed as JSON is surfaced as an HTTP
404 rejection — never as a successful match — and a trace record (with the
`JSON Decode Error` marker and an empty decision) is still queued for the
request. -/
theorem c4_malformed_judge_output (env : Env) (q : String) (hits : List MHit)
    (hcc : cacheCheck env q = none)
    (hq : env.qdrant = .ok hits)
    (hne : hits.isEmpty = false)
    (hj : env.judge = none) :
    resolve_entity env q =
      ⟨.httpError 404 "AI reasoning failure. Safely rejecting.", env.cache,
        [mkTrace q hits none env.latency (some "JSON Decode Error")],
        vecServices ++ [Service.llmJudge]⟩ ∧
    (resolve_entity env q).outcome.isSuccess = false ∧
    (resolve_entity env q).traces.length = 1 := by
  have hmain : resolve_entity env q =
      ⟨.httpError 404 "AI reasoning failure. Safely rejecting.", env.cache,
        [mkTrace q hits none env.latency (some "JSON Decode Error")],
        vecServices ++ [Service.llmJudge]⟩ := by
    unfold resolve_entity retrievalStage judgeStage
    rw [hcc, hq]
    simp only [hne, Bool.false_eq_true, if_false, hj]
  refine ⟨hmain, ?_, ?_⟩
  · rw [hmain]
    rfl
  · rw [hmain]
    rfl

/-- C4 witness environment: one candidate, unparsable judge reply. -/
def env4 : Env :=
  { redisUp := true
    cache := []
    qdrant := .ok [⟨5, ⟨some "Apple AirPods Pro 2", none, none, none, none,
      none, none, none⟩⟩]
    judge := none
    latency := 31 }

/-- C4 witness: the unparsable judge reply of `env4` yields the 404
rejection and still queues exactly one trace record. -/
theorem c4_malformed_judge_output_witness :
    (resolve_entity env4 "AirPods Pro").outcome =
      .httpError 404 "AI reasoning failure. Safely rejecting." ∧
    (resolve_entity env4 "AirPods Pro").traces.length = 1 := by
  have h := c4_malformed_judge_output env4 "AirPods Pro"
    ((env4.qdrant.toOption).getD []) rfl rfl rfl rfl
  exact ⟨by rw [h.1], h.2.2⟩

/-! ### Claim C5 — empty retrieval -/

/-- C5 counterexample environment: both retrieval representations come back
empty. -/
def envEmptyB : BEnv :=
  { redisUp := false
    cache := []
    dense_hits := []
    sparse_hits := []
    logits := []
    latency := 0 }

/-- C5 request used by the counterexample and the witness. -/
def reqEmptyB : BRequest := { query := "usb cable", top_k := 10 }

/-- C5 counterexample: the claim states that a request whose dense and
sparse retrieval are both empty still writes exactly one trace record.  On
the empty-candidates path of `search` the log task list is empty — zero
records, not one (and `resolve_entity` likewise queues no trace on its
empty-retrieval 404 path). -/
theorem c5_counterexample :
    (backendSearch envEmptyB reqEmptyB).response.results = [] ∧
    (backendSearch envEmptyB reqEmptyB).logs.length ≠ 1 := by
  constructor
  · rfl
  · intro h
    simp [backendSearch, bCacheCheck, envEmptyB, reqEmptyB, fuseCandidates,
      dedupHits] at h

/-- C5 (amended): when dense and sparse retrieval both return empty results,
each pipeline returns a not-found or empty response rather than an unhandled
error — `search` answers with an empty `results` list and source `Empty`,
`resolve_entity` raises a 404 — but neither pipeline writes any trace record
on this path; the trace count there is zero, not one. -/
theorem c5_empty_retrieval :
    (∀ (env : BEnv) (req : BRequest),
      bCacheCheck env req = none →
      env.dense_hits = [] → env.sparse_hits = [] →
      (backendSearch env req).response.results = [] ∧
      (backendSearch env req).response.source = "Empty" ∧
      (backendSearch env req).logs = []) ∧
    (∀ (env : Env) (q : String),
      cacheCheck env q = none → env.qdrant = .ok [] →
      (resolve_entity env q).outcome =
        .httpError 404 "No products found in vector search." ∧
      (resolve_entity env q).traces = []) := by
  constructor
  · intro env req hcc hd hs
    unfold backendSearch
    rw [hcc]
    simp only [fuseCandidates, hd, hs, List.nil_append, dedupHits,
      List.isEmpty_nil, if_true]
    exact ⟨trivial, trivial, trivial⟩
  · intro env q hcc hq
    unfold resolve_entity retrievalStage
    rw [hcc, hq]
    simp only [List.isEmpty_nil, if_true]
    exact ⟨trivial, trivial⟩

/-- C5 main-pipeline witness environment: Qdrant returns no points. -/
def envEmptyM : Env :=
  { redisUp := true
    cache := []
    qdrant := .ok []
    judge := none
    latency := 3 }

/-- C5 witness: the amended theorem applied to the two concrete empty
environments. -/
theorem c5_empty_retrieval_witness :
    ((backendSearch envEmptyB reqEmptyB).response.source = "Empty" ∧
      (backendSearch envEmptyB reqEmptyB).logs = []) ∧
    ((resolve_entity envEmptyM "anything").outcome =
      .httpError 404 "No products found in vector search." ∧
      (resolve_entity envEmptyM "anything").traces = []) :=
  ⟨⟨(c5_empty_retrieval.1 envEmptyB reqEmptyB rfl rfl rfl).2.1,
    (c5_empty_retrieval.1 envEmptyB reqEmptyB rfl rfl rfl).2.2⟩,
   c5_empty_retrieval.2 envEmptyM "anything" rfl rfl⟩

/-! ### Claim C6 — fusion deduplication -/

/-- Every hit surviving `dedupHits` has an identifier outside `seen`, and the
surviving identifiers are pairwise distinct. -/
theorem dedupHits_id_spec (l : List BHit) (seen : List Nat) :
    (∀ h ∈ dedupHits l seen, h.id ∉ seen) ∧
    (dedupHits l seen).Pairwise (fun a b => a.id ≠ b.id) := by
  induction l generalizing seen with
  | nil => simp [dedupHits]
  | cons h t ih =>
    by_cases hs : h.id ∈ seen
    · simpa [dedupHits, hs] using ih seen
    · simp only [dedupHits, hs, if_false, if_neg, not_false_eq_true]
      have iht := ih (h.id :: seen)
      refine ⟨?_, ?_⟩
      · intro x hx
        rcases List.mem_cons.mp hx with hxh | hxt
        · rw [hxh]
          exact hs
        · intro hxs
          exact iht.1 x hxt (List.mem_cons_of_mem _ hxs)
      · refine List.pairwise_cons.mpr ⟨?_, iht.2⟩
        intro x hx
        have := iht.1 x hx
        intro he
        exact this (he ▸ List.mem_cons_self _ _)

/-- Deduplication returns a sublist of its input: it only drops hits. -/
theorem dedupHits_sublist (l : List BHit) (seen : List Nat) :
    (dedupHits l seen).Sublist l := by
  induction l generalizing seen with
  | nil => simp [dedupHits]
  | cons h t ih =>
    by_cases hs : h.id ∈ seen
    · simp only [dedupHits, hs, if_true, if_pos]
      exact (ih seen).trans (List.sublist_cons_self h t)
    · simp only [dedupHits, hs, if_false, if_neg, not_false_eq_true]
      exact (ih (h.id :: seen)).cons₂ h

/-- C6 dense-side duplicate used by the counterexample: identifier 1, dense
retrieval score 1/10. -/
noncomputable def bhitDense : BHit :=
  ⟨1, 1 / 10, ⟨some "B07W", "boAt Bassheads 100", some "369", some (42 / 10),
    none, some "Earphones"⟩⟩

/-- C6 sparse-side duplicate: the same identifier 1, sparse retrieval score
9/10. -/
noncomputable def bhitSparse : BHit :=
  ⟨1, 9 / 10, ⟨some "B07W", "boAt Bassheads 100", some "369", some (42 / 10),
    none, some "Earphones"⟩⟩

/-- C6 counterexample: the claim states that when an identifier appears in
both retrieval lists the duplicates are merged keeping the higher score per
representation.  The fusion of `search` keeps the first occurrence wholesale:
with a dense score of 1/10 and a sparse score of 9/10 for the same
identifier, the fused entry keeps 1/10, not the maximum. -/
theorem c6_counterexample :
    fuseCandidates [bhitDense] [bhitSparse] = [bhitDense] ∧
    (fuseCandidates [bhitDense] [bhitSparse]).map BHit.score = [1 / 10] ∧
    ¬ ((1 : ℝ) / 10 = max (1 / 10) (9 / 10)) := by
  refine ⟨rfl, rfl, ?_⟩
  rw [max_eq_right (by norm_num)]
  norm_num

/-- C6 (amended): the fused candidate set contains no two entries with the
same identifier, and is a sublist of the concatenated input lists — when an
identifier appears in both lists, only its first occurrence (from the dense
list, which precedes the sparse list) survives, with that occurrence kept
wholesale; the later duplicate is dropped, not merged by maximum score. -/
theorem c6_fusion_no_duplicates (dense_hits sparse_hits : List BHit) :
    (fuseCandidates dense_hits sparse_hits).Pairwise
      (fun a b => a.id ≠ b.id) ∧
    (fuseCandidates dense_hits sparse_hits).Sublist
      (dense_hits ++ sparse_hits) :=
  ⟨(dedupHits_id_spec (dense_hits ++ sparse_hits) []).2,
   dedupHits_sublist (dense_hits ++ sparse_hits) []⟩

/-! ### Claim C7 — cross-encoder rerank -/

/-- The sigmoid is nonnegative. -/
theorem sigmoid_nonneg (x : ℝ) : 0 ≤ sigmoid x := by
  unfold sigmoid
  positivity

/-- The sigmoid is bounded by one. -/
theorem sigmoid_le_one (x : ℝ) : sigmoid x ≤ 1 := by
  unfold sigmoid
  rw [div_le_one (by positivity)]
  linarith [Real.exp_pos (-x)]

/-- The sigmoid is monotone: it preserves the order of the logits. -/
theorem sigmoid_mono {x y : ℝ} (h : x ≤ y) : sigmoid x ≤ sigmoid y := by
  unfold sigmoid
  apply one_div_le_one_div_of_le (by positivity)
  have := Real.exp_le_exp.mpr (neg_le_neg h)
  linarith

/-- Every element of a `zipWith` is the image of a member of each input
list. -/
theorem exists_pair_of_mem_zipWith {α β γ : Type} {f : α → β → γ} :
    ∀ {as : List α} {bs : List β} {x : γ}, x ∈ List.zipWith f as bs →
      ∃ a ∈ as, ∃ b ∈ bs, x = f a b := by
  intro as
  induction as with
  | nil =>
    intro bs x hx
    simp at hx
  | cons a as ih =>
    intro bs x hx
    cases bs with
    | nil => simp at hx
    | cons b bs =>
      rw [List.zipWith_cons_cons] at hx
      rcases List.mem_cons.mp hx with hxe | hxt
      · exact ⟨a, List.mem_cons_self a as, b, List.mem_cons_self b bs, hxe⟩
      · obtain ⟨a1, ha1, b1, hb1, he⟩ := ih hxt
        exact ⟨a1, List.mem_cons_of_mem a ha1, b1,
          List.mem_cons_of_mem b hb1, he⟩

/-- The pool of candidates scored by the rerank, each with its sigmoid
score. -/
noncomputable def rerankScoredPool (candidates : List BHit)
    (logits : List ℝ) : List BHit :=
  List.zipWith (fun h l => { h with score := sigmoid l })
    (candidates.take 12) logits

/-- C7: for a nonempty deduplicated candidate list (with one cross-encoder
logit per pooled candidate) the rerank output (i) has at most
`min top_k 12` entries — the pool is bounded to 12 and the output truncated
to the requested size, (ii) is sorted in descending score order, (iii) is a
subpermutation of the pool of candidates rescored through the sigmoid —
every surviving candidate is a pooled candidate whose score was populated
with the sigmoid of its logit, (iv) carries scores inside `[0, 1]` on every
surviving candidate, and (v) the squashing function is monotone. -/
theorem c7_rerank_shape (candidates : List BHit) (logits : List ℝ)
    (top_k : Nat) (hne : candidates ≠ [])
    (hlen : logits.length = (candidates.take 12).length) :
    (searchRerank candidates logits top_k).length ≤ min top_k 12 ∧
    (searchRerank candidates logits top_k).Pairwise
      (fun a b => b.score ≤ a.score) ∧
    List.Subperm (searchRerank candidates logits top_k)
      (rerankScoredPool candidates logits) ∧
    (searchRerank candidates logits top_k).Forall
      (fun h => 0 ≤ h.score ∧ h.score ≤ 1) ∧
    (∀ x y : ℝ, x ≤ y → sigmoid x ≤ sigmoid y) := by
  have hsubl : (searchRerank candidates logits top_k).Sublist
      ((rerankScoredPool candidates logits).mergeSort
        fun a b => decide (b.score ≤ a.score)) := by
    unfold searchRerank rerankScoredPool
    exact List.take_sublist _ _
  have hperm : ((rerankScoredPool candidates logits).mergeSort
      fun a b => decide (b.score ≤ a.score)).Perm
      (rerankScoredPool candidates logits) :=
    List.mergeSort_perm _ _
  refine ⟨?_, ?_, ?_, ?_, fun x y h => sigmoid_mono h⟩
  · unfold searchRerank
    rw [List.length_take, List.length_mergeSort, List.length_zipWith,
      List.length_take]
    omega
  · have hsorted := @List.sorted_mergeSort BHit
      (fun a b : BHit => decide (b.score ≤ a.score))
      (fun a b c h1 h2 => by
        simp only [decide_eq_true_eq] at h1 h2 ⊢
        exact le_trans h2 h1)
      (fun a b => by
        simp only [Bool.or_eq_true, decide_eq_true_eq]
        exact le_total b.score a.score)
      (rerankScoredPool candidates logits)
    have := hsorted.sublist hsubl
    exact this.imp fun h => of_decide_eq_true h
  · exact (hsubl.subperm).trans hperm.subperm
  · rw [List.forall_iff_forall_mem]
    intro x hx
    have hx2 : x ∈ rerankScoredPool candidates logits :=
      hperm.mem_iff.mp (hsubl.mem hx)
    obtain ⟨c, _, l, _, he⟩ := exists_pair_of_mem_zipWith hx2
    rw [he]
    exact ⟨sigmoid_nonneg l, sigmoid_le_one l⟩

/-- C7 witness candidate. -/
noncomputable def bhit7 : BHit :=
  ⟨4, 0, ⟨some "B08N", "Braided USB C Cable", some "299", some (45 / 10),
    none, some "Cables"⟩⟩

/-- C7 witness: the theorem applied to a concrete one-candidate pool with
logit 0. -/
theorem c7_rerank_shape_witness :
    (searchRerank [bhit7] [0] 5).length ≤ min 5 12 ∧
    sigmoid 0 ≤ sigmoid 1 :=
  ⟨(c7_rerank_shape [bhit7] [0] 5 (List.cons_ne_nil bhit7 []) rfl).1,
   (c7_rerank_shape [bhit7] [0] 5 (List.cons_ne_nil bhit7 []) rfl).2.2.2.2
     0 1 (by norm_num)⟩

/-! ### Claim C8 — cache idempotence -/

/-- After a successful resolution with Redis available, the cache afterwards
maps the normalized query to the returned response: either the success came
from the cache itself, or the success path just wrote the entry. -/
theorem resolve_success_cache_lookup (env : Env) (q : String)
    (m : ProductMatch) (hredis : env.redisUp = true)
    (hsucc : (resolve_entity env q).outcome = .success m) :
    List.lookup (mainNormalize q) ((resolve_entity env q).cache) = some m := by
  unfold resolve_entity at hsucc ⊢
  generalize hcc : cacheCheck env q = cc at hsucc ⊢
  rcases cc with _ | m0
  · unfold retrievalStage at hsucc ⊢
    generalize env.qdrant = qd at hsucc ⊢
    rcases qd with e | hits
    · simp at hsucc
    · by_cases he : hits.isEmpty = true
      · simp [he] at hsucc
      · simp only [Bool.not_eq_true] at he
        simp only [he, Bool.false_eq_true, if_false] at hsucc ⊢
        unfold judgeStage at hsucc ⊢
        generalize env.judge = j at hsucc ⊢
        rcases j with _ | d
        · simp at hsucc
        · by_cases hr : llmReject d = true
          · simp [hr] at hsucc
          · simp only [Bool.not_eq_true] at hr
            simp only [hr, Bool.false_eq_true, if_false] at hsucc ⊢
            generalize hl : List.lookup (pyStrGet d.candidate_id)
              (candidate_map hits) = lr at hsucc ⊢
            rcases lr with _ | p
            · simp at hsucc
            · simp only [Outcome.success.injEq] at hsucc
              simp only [hredis, if_true, hsucc]
              exact List.lookup_cons_self
  · simp only [Outcome.success.injEq] at hsucc
    unfold cacheCheck at hcc
    simp only [hredis, if_true] at hcc
    simpa using hcc.trans (congrArg some hsucc)

/-- C8: resolving a query again while its cache entry is live returns the
identical cached response and short-circuits the pipeline — the second
request invokes no external service (no vectorization, no retrieval, no
judge), writes nothing, and queues no trace. -/
theorem c8_cache_idempotence (env : Env) (q : String) (m : ProductMatch)
    (hredis : env.redisUp = true)
    (hsucc : (resolve_entity env q).outcome = .success m) :
    resolve_entity { env with cache := (resolve_entity env q).cache } q =
      ⟨.success m, (resolve_entity env q).cache, [], []⟩ := by
  have hl := resolve_success_cache_lookup env q m hredis hsucc
  generalize hC : (resolve_entity env q).cache = C at hl ⊢
  have hcc : cacheCheck { env with cache := C } q = some m := by
    unfold cacheCheck
    simp only [hredis, if_true]
    exact hl
  unfold resolve_entity
  rw [hcc]

/-- C8 witness payload: the matched Walmart product. -/
def payloadW : Payload :=
  { name := some "Sony WH-1000XM5 Wireless Headphones"
    title := none
    original_string := none
    price := some "278.00"
    priceInfo := none
    url := some "/ip/sony-wh-1000xm5/123"
    canonicalUrl := none
    retailer := none }

/-- C8 witness environment: Redis up, one candidate, judge accepts index
0. -/
def envW : Env :=
  { redisUp := true
    cache := []
    qdrant := .ok [⟨2, payloadW⟩]
    judge := some ⟨some (.jbool true), some (.jint 0),
      some (.jstr "Exact model match.")⟩
    latency := 12 }

/-- C8 witness response: what the first resolution returns and caches. -/
def matchW : ProductMatch := buildMatch payloadW 12

/-- C8 witness: the theorem applied to the concrete environment after a
successful first resolution. -/
theorem c8_cache_idempotence_witness :
    resolve_entity { envW with cache := (resolve_entity envW " Sony XM5").cache }
      " Sony XM5" =
      ⟨.success matchW, (resolve_entity envW " Sony XM5").cache, [], []⟩ :=
  c8_cache_idempotence envW " Sony XM5" matchW rfl (by decide)

/-! ### Claim C9 — sparse vector well-formedness -/

/-- C9: for every input (every token hash and token list), the sparse vector
emitted by the vectorizer has strictly ascending indices with no duplicates,
and every weight is nonnegative. -/
theorem c9_sparse_vector_wellformed (hash : String → Nat)
    (tokens : List String) :
    (get_sparse_vector hash tokens).indices.Pairwise (· < ·) ∧
    (get_sparse_vector hash tokens).indices.Nodup ∧
    (get_sparse_vector hash tokens).values.Forall (fun v => 0 ≤ v) := by
  have hpw : (get_sparse_vector hash tokens).indices.Pairwise (· < ·) := by
    show (sparseSupport hash tokens).Pairwise (· < ·)
    exact (List.pairwise_lt_range n_features).sublist (List.filter_sublist _)
  refine ⟨hpw, hpw.imp fun h => Nat.ne_of_lt h, ?_⟩
  show (((sparseSupport hash tokens).map
    fun i => ((sparseIdxs hash tokens).count i : ℝ) /
      sparseNorm hash tokens)).Forall (fun v => 0 ≤ v)
  rw [List.forall_iff_forall_mem]
  intro v hv
  obtain ⟨i, _, rfl⟩ := List.mem_map.mp hv
  exact div_nonneg (Nat.cast_nonneg _) (Real.sqrt_nonneg _)

/-! ### Claim C10 — constant match score -/

/-- C10: every successful response of the entity-resolution endpoint carries
the constant `match_score` of `1.0`.  Stated as an invariant: if every cached
response has score 1 (true initially, the cache starts empty and is only
ever filled by this endpoint), then any successful outcome of
`resolve_entity` has score 1 — so any two accepted matches report the
identical score — and the cache afterwards still only holds responses with
score 1. -/
theorem c10_constant_match_score (env : Env) (q : String)
    (hcache : env.cache.Forall fun e => e.2.match_score = 1) :
    (∀ m : ProductMatch, (resolve_entity env q).outcome = .success m →
      m.match_score = 1) ∧
    ((resolve_entity env q).cache.Forall fun e => e.2.match_score = 1) := by
  unfold resolve_entity
  generalize hcc : cacheCheck env q = cc
  rcases cc with _ | m0
  · unfold retrievalStage
    generalize env.qdrant = qd
    rcases qd with e | hits
    · exact ⟨fun m hm => by simp at hm, hcache⟩
    · by_cases he : hits.isEmpty = true
      · simp only [he, if_true]
        exact ⟨fun m hm => by simp at hm, hcache⟩
      · simp only [Bool.not_eq_true] at he
        simp only [he, Bool.false_eq_true, if_false]
        unfold judgeStage
        generalize env.judge = j
        rcases j with _ | d
        · exact ⟨fun m hm => by simp at hm, hcache⟩
        · by_cases hr : llmReject d = true
          · simp only [hr, if_true]
            exact ⟨fun m hm => by simp at hm, hcache⟩
          · simp only [Bool.not_eq_true] at hr
            simp only [hr, Bool.false_eq_true, if_false]
            generalize List.lookup (pyStrGet d.candidate_id)
              (candidate_map hits) = lr
            rcases lr with _ | p
            · exact ⟨fun m hm => by simp at hm, hcache⟩
            · refine ⟨fun m hm => ?_, ?_⟩
              · simp only [Outcome.success.injEq] at hm
                rw [← hm]
                rfl
              · by_cases hru : env.redisUp = true
                · simp only [hru, if_true]
                  exact (List.forall_cons _ _ _).mpr ⟨rfl, hcache⟩
                · simp only [Bool.not_eq_true] at hru
                  simp only [hru, Bool.false_eq_true, if_false]
                  exact hcache
  · refine ⟨fun m hm => ?_, hcache⟩
    simp only [Outcome.success.injEq] at hm
    unfold cacheCheck at hcc
    by_cases hru : env.redisUp = true
    · rw [hru, if_pos rfl] at hcc
      obtain ⟨l₁, l₂, hdec, -⟩ := List.lookup_eq_some_iff.mp hcc
      have hmem : (mainNormalize q, m0) ∈ env.cache := by
        rw [hdec]
        exact List.mem_append_right _ (List.mem_cons_self _ _)
      have := (List.forall_iff_forall_mem.mp hcache) _ hmem
      rw [← hm]
      exact this
    · simp only [Bool.not_eq_true] at hru
      rw [hru] at hcc
      simp at hcc

/-- C10 witness: the theorem applied at the concrete successful environment
`envW`; the concrete accepted response `matchW` carries score 1. -/
theorem c10_constant_match_score_witness :
    matchW.match_score = 1 :=
  (c10_constant_match_score envW " Sony XM5" trivial).1 matchW (by decide)

end ShopSmart
